import Mathlib

/-!
Verification of the authentication/session core of the Mogilev33 REST API.

The development shallowly embeds the authentication subsystem:
  * the token codec wrapper (`src/lib/jwt.ts`),
  * token-pair issuance (`createAccessTokens` in `src/services/authService.ts`),
  * the auth session service (`register`, `login`, `logout` in
    `src/services/authService.ts`),
  * the denylist model (`src/models/InvalidToken.ts`),
  * the auth middleware (`src/middlewares/authMiddleware.ts`),
  * the role middleware (`src/middlewares/isAdminMiddleware.ts`),
  * the logout route of the auth controller (`src/controllers/authController.ts`).

Time is modelled in whole seconds as `Nat`.
-/

/-- Identity claims embedded in a signed token, as built by
`createAccessTokens`: `{ _id, email, role }`. -/
structure Claims where
  _id : String
  email : String
  role : String
deriving DecidableEq, Repr

/-- Modelled from the spec (§4.1 Token codec): the `jsonwebtoken` library
behind `signJwt`/`verifyJwt` in `src/lib/jwt.ts` is an external collaborator,
so a signed token string is represented by its semantic content: the payload
claims, the signing secret (standing for the signature), the issue time and
the lifetime in seconds.  Equality of `Token` values models exact equality of
the corresponding token strings. -/
structure Token where
  payload : Claims
  secret : String
  iat : Nat
  lifetime : Nat
deriving DecidableEq, Repr

/-- Embedding of `signJwt(payload, secret, { expiresIn })` from `src/lib/jwt.ts`: produces
a signed token embedding the payload, the secret and the expiry window,
stamped with the issue time `now`. -/
def signJwt (payload : Claims) (secret : String) (expiresIn : Nat) (now : Nat) : Token :=
  { payload := payload, secret := secret, iat := now, lifetime := expiresIn }

/-- Failure cases of `verifyJwt`, per the codec contract: signature mismatch
or embedded expiry passed. -/
inductive VerifyError where
  | badSignature
  | expired
deriving DecidableEq, Repr

/-- Embedding of `verifyJwt(token, secret)` from `src/lib/jwt.ts` evaluated at time `now`:
fails if the signature does not match the secret or the embedded expiry has
passed; on success returns the original claims. -/
def verifyJwt (t : Token) (secret : String) (now : Nat) : Except VerifyError Claims :=
  if t.secret ≠ secret then .error .badSignature
  else if t.iat + t.lifetime ≤ now then .error .expired
  else .ok t.payload

/-- The typed error thrown across middleware boundaries
(`CustomError(message, statusCode)` in `src/utils/errorUtils/customError.ts`). -/
structure CustomError where
  message : String
  statusCode : Nat
deriving DecidableEq, Repr

/-- Process environment slice consumed by the auth core: `JWT_SECRET` and
`JWT_REFRESH_SECRET`.  `none` models an unset variable. -/
structure Env where
  jwtSecret : Option String
  jwtRefreshSecret : Option String
deriving DecidableEq, Repr

/-- JavaScript falsiness of an optional environment string as tested by
`!process.env.X`: true when the variable is unset or the empty string. -/
def envFalsy : Option String → Bool
  | none => true
  | some s => s.isEmpty

/-- The `{ accessToken, refreshToken }` pair returned by `createAccessTokens`. -/
structure TokenPair where
  accessToken : Token
  refreshToken : Token
deriving DecidableEq, Repr

/-- Access-token lifetime: `expiresIn: "15m"` in `createAccessTokens`. -/
def accessTokenLifetime : Nat := 15 * 60

/-- Refresh-token lifetime: `expiresIn: "7d"` in `createAccessTokens`. -/
def refreshTokenLifetime : Nat := 7 * 24 * 60 * 60

/-- Denylist retention window: `expires: "2d"` on the `createdAt` field of
`InvalidTokenSchema` in `src/models/InvalidToken.ts`. -/
def invalidTokenRetention : Nat := 2 * 24 * 60 * 60

/-- Embedding of `createAccessTokens(user)` from `src/services/authService.ts`: throws a
500 configuration error when either signing secret is falsy; otherwise builds
the payload `{ _id, email, role }` and signs the access token with
`JWT_SECRET` (15 minutes) and the refresh token with `JWT_REFRESH_SECRET`
(7 days). -/
def createAccessTokens (env : Env) (user : Claims) (now : Nat) :
    Except CustomError TokenPair :=
  if envFalsy env.jwtSecret || envFalsy env.jwtRefreshSecret then
    .error { message := "JWT secret is not configured!", statusCode := 500 }
  else
    let payload : Claims := { _id := user._id, email := user.email, role := user.role }
    .ok { accessToken := signJwt payload (env.jwtSecret.getD "") accessTokenLifetime now,
          refreshToken := signJwt payload (env.jwtRefreshSecret.getD "") refreshTokenLifetime now }

/-- Claim C1: the denylist retention window must be at least the refresh
token lifetime for revocation to hold over the token's whole validity
window.  The code violates this: the observed configuration retains denylist
entries for `"2d"` (172800 s) while refresh tokens live `"7d"` (604800 s),
so the retention window is strictly shorter than the refresh-token
lifetime. -/
theorem denylist_retention_shorter_than_refresh_lifetime :
    invalidTokenRetention < refreshTokenLifetime := by
  decide

/-- Claim C3: a token pair issued by `createAccessTokens` for claims
`{ _id, email, role }`, when the access token is verified with the access
secret and the refresh token with the refresh secret at any time before the
respective expiry, decodes back to exactly the original claims. -/
theorem token_pair_round_trip (u : Claims) (env : Env) (now tA tR : Nat)
    (hA : envFalsy env.jwtSecret = false)
    (hR : envFalsy env.jwtRefreshSecret = false)
    (htA : tA < now + accessTokenLifetime)
    (htR : tR < now + refreshTokenLifetime) :
    ∃ tp, createAccessTokens env u now = .ok tp ∧
      verifyJwt tp.accessToken (env.jwtSecret.getD "") tA = .ok u ∧
      verifyJwt tp.refreshToken (env.jwtRefreshSecret.getD "") tR = .ok u := by
  refine ⟨{ accessToken := signJwt ⟨u._id, u.email, u.role⟩ (env.jwtSecret.getD "")
              accessTokenLifetime now,
            refreshToken := signJwt ⟨u._id, u.email, u.role⟩ (env.jwtRefreshSecret.getD "")
              refreshTokenLifetime now }, ?_, ?_, ?_⟩
  · unfold createAccessTokens
    rw [hA, hR]
    rfl
  · simp [verifyJwt, signJwt, Nat.not_le.mpr htA]
  · simp [verifyJwt, signJwt, Nat.not_le.mpr htR]

/-- Witness for C3 at a concrete configuration and claims object. -/
theorem token_pair_round_trip_witness :
    ∃ tp, createAccessTokens ⟨some "acc", some "ref"⟩ ⟨"id1", "a@b.c", "user"⟩ 0 = .ok tp ∧
      verifyJwt tp.accessToken ((some "acc").getD "") 100 = .ok ⟨"id1", "a@b.c", "user"⟩ ∧
      verifyJwt tp.refreshToken ((some "ref").getD "") 100 = .ok ⟨"id1", "a@b.c", "user"⟩ :=
  token_pair_round_trip ⟨"id1", "a@b.c", "user"⟩ ⟨some "acc", some "ref"⟩ 0 100 100
    (by decide) (by decide) (by decide) (by decide)

/-- Claim C5: `createAccessTokens` fails with the 500 configuration error
when either signing secret is falsy, and otherwise returns exactly the pair
consisting of the payload `{ _id, email, role }` signed with the access
secret for 15 minutes and with the refresh secret for 7 days. -/
theorem createAccessTokens_spec (env : Env) (u : Claims) (now : Nat) :
    ((envFalsy env.jwtSecret || envFalsy env.jwtRefreshSecret) = true →
      createAccessTokens env u now =
        .error { message := "JWT secret is not configured!", statusCode := 500 }) ∧
    ((envFalsy env.jwtSecret || envFalsy env.jwtRefreshSecret) = false →
      createAccessTokens env u now =
        .ok { accessToken :=
                signJwt { _id := u._id, email := u.email, role := u.role }
                  (env.jwtSecret.getD "") accessTokenLifetime now,
              refreshToken :=
                signJwt { _id := u._id, email := u.email, role := u.role }
                  (env.jwtRefreshSecret.getD "") refreshTokenLifetime now }) := by
  constructor
  · intro h
    unfold createAccessTokens
    rw [h]
    rfl
  · intro h
    unfold createAccessTokens
    rw [h]
    rfl

/-- Witness for C5: the missing-secret branch at a concrete environment and
the success branch at another. -/
theorem createAccessTokens_spec_witness :
    createAccessTokens ⟨none, some "ref"⟩ ⟨"i", "e", "user"⟩ 0 =
      .error { message := "JWT secret is not configured!", statusCode := 500 } ∧
    createAccessTokens ⟨some "acc", some "ref"⟩ ⟨"i", "e", "user"⟩ 0 =
      .ok { accessToken := signJwt ⟨"i", "e", "user"⟩ "acc" accessTokenLifetime 0,
            refreshToken := signJwt ⟨"i", "e", "user"⟩ "ref" refreshTokenLifetime 0 } := by
  constructor
  · exact (createAccessTokens_spec ⟨none, some "ref"⟩ ⟨"i", "e", "user"⟩ 0).1 (by decide)
  · exact (createAccessTokens_spec ⟨some "acc", some "ref"⟩ ⟨"i", "e", "user"⟩ 0).2 (by decide)

/-- A denylist document (`InvalidTokenSchema` in `src/models/InvalidToken.ts`):
the denylisted refresh-token string and its `createdAt` timestamp, which
drives the TTL removal after `invalidTokenRetention` seconds. -/
structure InvalidTokenEntry where
  token : Token
  createdAt : Nat
deriving DecidableEq, Repr

/-- The persisted denylist collection. -/
abbrev Denylist := List InvalidTokenEntry

/-- Embedding of `InvalidToken.findOne({ token })` evaluated at time `now`: exact-match
lookup among the entries the store still retains.  The store's background
TTL removal (`expires: "2d"`) is modelled as a query-time filter: an entry
older than the retention window has been purged and is no longer found. -/
def invalidTokenFindOne (dl : Denylist) (now : Nat) (t : Token) :
    Option InvalidTokenEntry :=
  (dl.filter (fun e => decide (now < e.createdAt + invalidTokenRetention))).find?
    (fun e => decide (e.token = t))

/-- Embedding of `InvalidToken.create({ token })` as performed by `authService.logout`:
unconditionally inserts a denylist entry for the given refresh-token string,
stamped with the current time. -/
def logoutService (dl : Denylist) (refreshToken : Token) (now : Nat) : Denylist :=
  dl ++ [{ token := refreshToken, createdAt := now }]

/-- An error travelling down the error chain out of the auth middleware:
either a `CustomError` thrown by the middleware itself, a rejection from
`verifyJwt`, or a rejection from the denylist store query. -/
inductive MWError where
  | custom (e : CustomError)
  | verifyFail (e : VerifyError)
  | dbFail
deriving DecidableEq, Repr

/-- Outcome of one auth-middleware pass: `authenticated u` models
`req.user = u; req.isAuthenticated = true; next()`; `failed e` models
`next(error)`; `crashed` models a TypeError raised inside the catch block
(reading `req.cookies.refreshToken` when `req.cookies` is undefined). -/
inductive MWOutcome where
  | authenticated (user : Claims)
  | failed (e : MWError)
  | crashed
deriving DecidableEq, Repr

/-- Result of one auth-middleware pass, together with whether
`res.clearCookie("refreshToken")` was called on the response. -/
structure MWResult where
  outcome : MWOutcome
  clearedCookie : Bool
deriving DecidableEq, Repr

/-- The cookies of an incoming request: `none` models `req.cookies` being
undefined (no cookie-parser ran); `some none` a cookies object without the
`refreshToken` key; `some (some t)` a `refreshToken` cookie holding `t`. -/
abbrev Cookies := Option (Option Token)

/-- The `try` block of `authMiddleware` (`src/middlewares/authMiddleware.ts`):
read `req.cookies?.refreshToken`; missing token throws 401
`"Missing token!"`; a denylist hit throws 403 `"Invalid token!"`; a falsy
`JWT_REFRESH_SECRET` throws 500; then `verifyJwt` either rejects or yields
the decoded claims.  `dbOk = false` models the denylist query rejecting. -/
def authMiddlewareTry (cookies : Cookies) (dl : Denylist) (dbOk : Bool)
    (refreshSecret : Option String) (now : Nat) : Except MWError Claims :=
  match cookies.bind id with
  | none => .error (.custom { message := "Missing token!", statusCode := 401 })
  | some t =>
    if !dbOk then .error .dbFail
    else if (invalidTokenFindOne dl now t).isSome then
      .error (.custom { message := "Invalid token!", statusCode := 403 })
    else if envFalsy refreshSecret then
      .error (.custom { message := "JWT refresh secret is not configured!", statusCode := 500 })
    else
      match verifyJwt t (refreshSecret.getD "") now with
      | .error e => .error (.verifyFail e)
      | .ok u => .ok u

/-- Embedding of `authMiddleware` with its catch block: on success no cookie is touched;
on failure the catch block reads `req.cookies.refreshToken` without a guard,
so an undefined cookies object raises a TypeError (`crashed`), a truthy
cookie is cleared before `next(error)`, and an absent cookie leaves the
response untouched. -/
def authMiddleware (cookies : Cookies) (dl : Denylist) (dbOk : Bool)
    (refreshSecret : Option String) (now : Nat) : MWResult :=
  match authMiddlewareTry cookies dl dbOk refreshSecret now with
  | .ok u => { outcome := .authenticated u, clearedCookie := false }
  | .error e =>
    match cookies with
    | none => { outcome := .crashed, clearedCookie := false }
    | some none => { outcome := .failed e, clearedCookie := false }
    | some (some _) => { outcome := .failed e, clearedCookie := true }

/-- Embedding of `isAdmin` (`src/middlewares/isAdminMiddleware.ts`): throws a 403
`CustomError` unless `req.user?.role` is exactly `"admin"`; otherwise calls
`next()` with the request unchanged. -/
def isAdmin (user : Option Claims) : Except CustomError Unit :=
  if (user.map Claims.role) ≠ some "admin" then
    .error { message := "Admin access required", statusCode := 403 }
  else
    .ok ()

/-- Counterexample to C2 as stated: a refresh token signed at time 0 with a
7-day lifetime is logged out at time 0, yet an auth-middleware pass 3 days
later — after the 2-day denylist retention has elapsed but well before the
token's embedded expiry — authenticates instead of failing with 403. -/
theorem logout_then_pass_after_retention_authenticates :
    authMiddleware
        (some (some (signJwt ⟨"id1", "a@b.c", "user"⟩ "rsec" refreshTokenLifetime 0)))
        (logoutService [] (signJwt ⟨"id1", "a@b.c", "user"⟩ "rsec" refreshTokenLifetime 0) 0)
        true (some "rsec") (3 * 24 * 60 * 60) =
      { outcome := .authenticated ⟨"id1", "a@b.c", "user"⟩, clearedCookie := false } ∧
    3 * 24 * 60 * 60 < refreshTokenLifetime := by
  constructor
  · rfl
  · decide

/-- A denylist entry inserted by logout is found by the exact-match lookup
as long as the retention window has not elapsed. -/
lemma invalidTokenFindOne_logout_isSome (dl : Denylist) (T : Token) (nowL now : Nat)
    (h : now < nowL + invalidTokenRetention) :
    (invalidTokenFindOne (logoutService dl T nowL) now T).isSome = true := by
  rw [invalidTokenFindOne, List.find?_isSome]
  refine ⟨⟨T, nowL⟩, ?_, by simp⟩
  simp [logoutService, List.mem_filter, h]

/-- Claim C2 (amended): after `logout({refreshToken: T})`, every subsequent
auth-middleware pass on a request whose cookie equals `T` that happens while
the denylist entry is still retained (within 2 days of the logout) fails
with 403 `"Invalid token!"`, whatever the configured secret and whatever the
token's own expiry status: the denylist lookup precedes the secret check and
signature verification. -/
theorem logout_denylists_within_retention (T : Token) (dl : Denylist)
    (refreshSecret : Option String) (nowL now : Nat)
    (h : now < nowL + invalidTokenRetention) :
    authMiddleware (some (some T)) (logoutService dl T nowL) true refreshSecret now =
      { outcome := .failed (.custom { message := "Invalid token!", statusCode := 403 }),
        clearedCookie := true } := by
  simp [authMiddleware, authMiddlewareTry,
    invalidTokenFindOne_logout_isSome dl T nowL now h]

/-- Witness for C2 (amended): a concrete logged-out token is rejected with
403 one hour later even though no refresh secret is configured at all,
showing the denylist hit decides the outcome before the secret check. -/
theorem logout_denylists_within_retention_witness :
    authMiddleware (some (some (signJwt ⟨"i", "e", "user"⟩ "s" 10 0)))
        (logoutService [] (signJwt ⟨"i", "e", "user"⟩ "s" 10 0) 0) true none 3600 =
      { outcome := .failed (.custom { message := "Invalid token!", statusCode := 403 }),
        clearedCookie := true } :=
  logout_denylists_within_retention (signJwt ⟨"i", "e", "user"⟩ "s" 10 0) [] none 0 3600
    (by decide)

/-- Claim C7: `isAdmin` rejects a non-admin identity with status 403, but
the thrown message is `"Admin access required"` — without the exclamation
mark the unit test (`_tests/unit/middlewares` isAdmin suite) and the
integration test (`_tests/integration/isAdmin.test.ts`) both expect as
`"Admin access required!"`. -/
theorem isAdmin_message_mismatch :
    isAdmin (some ⟨"userId", "example@email.com", "user"⟩) =
      .error { message := "Admin access required", statusCode := 403 } ∧
    "Admin access required" ≠ "Admin access required!" := by
  constructor
  · rfl
  · decide

/-- Claim C8: when a refresh-token cookie was present, every failure outcome
of the auth middleware clears the cookie on the response; on the no-token
401 path (cookies object present, `refreshToken` key absent) no cookie is
cleared. -/
theorem auth_failure_cookie_discipline (t : Token) (dl : Denylist) (dbOk : Bool)
    (refreshSecret : Option String) (now : Nat) :
    (∀ e, (authMiddleware (some (some t)) dl dbOk refreshSecret now).outcome = .failed e →
      (authMiddleware (some (some t)) dl dbOk refreshSecret now).clearedCookie = true) ∧
    authMiddleware (some none) dl dbOk refreshSecret now =
      { outcome := .failed (.custom { message := "Missing token!", statusCode := 401 }),
        clearedCookie := false } := by
  constructor
  · intro e
    unfold authMiddleware
    cases h : authMiddlewareTry (some (some t)) dl dbOk refreshSecret now <;> simp
  · rfl

/-- Witness for C8: with a denylisted concrete token the failing pass clears
the cookie, and the cookieless pass delivers 401 without clearing. -/
theorem auth_failure_cookie_discipline_witness :
    (authMiddleware (some (some (signJwt ⟨"i", "e", "user"⟩ "s" 10 0)))
        [⟨signJwt ⟨"i", "e", "user"⟩ "s" 10 0, 0⟩] true none 0).clearedCookie = true ∧
    authMiddleware (some none) [⟨signJwt ⟨"i", "e", "user"⟩ "s" 10 0, 0⟩] true none 0 =
      { outcome := .failed (.custom { message := "Missing token!", statusCode := 401 }),
        clearedCookie := false } := by
  constructor
  · exact (auth_failure_cookie_discipline (signJwt ⟨"i", "e", "user"⟩ "s" 10 0)
      [⟨signJwt ⟨"i", "e", "user"⟩ "s" 10 0, 0⟩] true none 0).1
      (.custom { message := "Invalid token!", statusCode := 403 }) (by decide)
  · exact (auth_failure_cookie_discipline (signJwt ⟨"i", "e", "user"⟩ "s" 10 0)
      [⟨signJwt ⟨"i", "e", "user"⟩ "s" 10 0, 0⟩] true none 0).2

/-- Claim C9: when `req.cookies` is itself undefined, the try block throws
the 401 `"Missing token!"` error, but the catch block's unguarded read of
`req.cookies.refreshToken` raises a TypeError, so the middleware crashes and
the 401 error is never passed to the error chain. -/
theorem undefined_cookies_crash_swallows_401 (dl : Denylist) (dbOk : Bool)
    (refreshSecret : Option String) (now : Nat) :
    authMiddlewareTry none dl dbOk refreshSecret now =
      .error (.custom { message := "Missing token!", statusCode := 401 }) ∧
    authMiddleware none dl dbOk refreshSecret now =
      { outcome := .crashed, clearedCookie := false } :=
  ⟨rfl, rfl⟩

/-- A persisted user record per `UserSchema` in `src/models/User.ts`: id
assigned by the store, email, hashed password, role (default `"user"`), and
creation time. -/
structure UserRecord where
  _id : String
  email : String
  password : String
  role : String
  createdAt : Nat
deriving DecidableEq, Repr

/-- The user collection. -/
abbrev UserStore := List UserRecord

/-- Embedding of `User.findOne({ email })`: exact-match lookup by email. -/
def userFindOneByEmail (store : UserStore) (email : String) : Option UserRecord :=
  store.find? (fun u => decide (u.email = email))

/-- The `{ email, password }` body accepted by register and login after
validation (`createUserSchema`). -/
structure CreateUserData where
  email : String
  password : String
deriving DecidableEq, Repr

/-- Embedding of `User.create(data)`: the store assigns `newId`, applies the schema
defaults (`role: "user"`, `createdAt: now`) and the pre-save hook hashes the
password (`hash` abstracts `bcrypt.hash`). -/
def userCreate (store : UserStore) (data : CreateUserData) (newId : String)
    (hash : String → String) (now : Nat) : UserRecord × UserStore :=
  let u : UserRecord :=
    { _id := newId, email := data.email, password := hash data.password,
      role := "user", createdAt := now }
  (u, store ++ [u])

/-- Result of one `authService.register` call, instrumented with the
resulting store and with whether `User.create` and `signJwt` were invoked. -/
structure RegisterResult where
  result : Except CustomError TokenPair
  store : UserStore
  createCalled : Bool
  signCalled : Bool
deriving Repr

/-- Embedding of `authService.register(data)` from `src/services/authService.ts`: looks
up the email; an existing user throws 409 `"This email already
registered!"`; otherwise the user is created and a token pair issued via
`createAccessTokens` (which signs only when both secrets are non-falsy). -/
def register (store : UserStore) (env : Env) (data : CreateUserData)
    (newId : String) (hash : String → String) (now : Nat) : RegisterResult :=
  match userFindOneByEmail store data.email with
  | some _ =>
    { result := .error { message := "This email already registered!", statusCode := 409 },
      store := store, createCalled := false, signCalled := false }
  | none =>
    let created := (userCreate store data newId hash now).1
    { result := createAccessTokens env
        { _id := created._id, email := created.email, role := created.role } now,
      store := (userCreate store data newId hash now).2,
      createCalled := true,
      signCalled := !(envFalsy env.jwtSecret || envFalsy env.jwtRefreshSecret) }

/-- Result of one `authService.login` call, instrumented with whether
`signJwt` was invoked. -/
structure LoginResult where
  result : Except CustomError TokenPair
  signCalled : Bool
deriving Repr

/-- Embedding of `authService.login(data)` from `src/services/authService.ts`: no user
with the email throws 404 `"User does not exist!"`; a failing
`bcrypt.compare` (abstracted by `compare`) throws 401 `"Password does not
match!"`; otherwise a token pair is issued via `createAccessTokens`. -/
def login (store : UserStore) (env : Env) (data : CreateUserData)
    (compare : String → String → Bool) (now : Nat) : LoginResult :=
  match userFindOneByEmail store data.email with
  | none =>
    { result := .error { message := "User does not exist!", statusCode := 404 },
      signCalled := false }
  | some user =>
    if !(compare data.password user.password) then
      { result := .error { message := "Password does not match!", statusCode := 401 },
        signCalled := false }
    else
      { result := createAccessTokens env
          { _id := user._id, email := user.email, role := user.role } now,
        signCalled := !(envFalsy env.jwtSecret || envFalsy env.jwtRefreshSecret) }

/-- Claim C4: registering an email for which a user record already exists
fails with 409, leaves the store unchanged, and invokes neither the store's
create operation nor the signing operation. -/
theorem register_existing_email_conflict (store : UserStore) (env : Env)
    (data : CreateUserData) (newId : String) (hash : String → String) (now : Nat)
    (h : (userFindOneByEmail store data.email).isSome = true) :
    register store env data newId hash now =
      { result := .error { message := "This email already registered!", statusCode := 409 },
        store := store, createCalled := false, signCalled := false } := by
  unfold register
  cases hfind : userFindOneByEmail store data.email with
  | none => rw [hfind] at h; simp at h
  | some u => rfl

/-- Witness for C4 at a concrete one-user store. -/
theorem register_existing_email_conflict_witness :
    ((userFindOneByEmail [⟨"u1", "a@b.c", "hpw", "user", 0⟩] "a@b.c").isSome = true) ∧
    register [⟨"u1", "a@b.c", "hpw", "user", 0⟩] ⟨some "acc", some "ref"⟩ ⟨"a@b.c", "pw"⟩
        "u2" id 5 =
      { result := .error { message := "This email already registered!", statusCode := 409 },
        store := [⟨"u1", "a@b.c", "hpw", "user", 0⟩],
        createCalled := false, signCalled := false } :=
  ⟨by decide,
   register_existing_email_conflict [⟨"u1", "a@b.c", "hpw", "user", 0⟩]
     ⟨some "acc", some "ref"⟩ ⟨"a@b.c", "pw"⟩ "u2" id 5 (by decide)⟩

/-- Claim C6: login with an email matching no user fails with 404; login
with a matching user but a password rejected by the one-way comparison fails
with 401; neither path invokes the signing operation or returns a token
pair. -/
theorem login_failure_paths (store : UserStore) (env : Env) (data : CreateUserData)
    (compare : String → String → Bool) (now : Nat) :
    (userFindOneByEmail store data.email = none →
      login store env data compare now =
        { result := .error { message := "User does not exist!", statusCode := 404 },
          signCalled := false }) ∧
    (∀ u, userFindOneByEmail store data.email = some u →
      compare data.password u.password = false →
      login store env data compare now =
        { result := .error { message := "Password does not match!", statusCode := 401 },
          signCalled := false }) := by
  constructor
  · intro h
    unfold login
    rw [h]
  · intro u h hcmp
    unfold login
    rw [h]
    simp [hcmp]

/-- Witness for C6: the 404 path on an empty store and the 401 path with a
comparison that rejects the supplied password. -/
theorem login_failure_paths_witness :
    login [] ⟨some "acc", some "ref"⟩ ⟨"a@b.c", "pw"⟩ (fun _ _ => true) 0 =
      { result := .error { message := "User does not exist!", statusCode := 404 },
        signCalled := false } ∧
    login [⟨"u1", "a@b.c", "hpw", "user", 0⟩] ⟨some "acc", some "ref"⟩ ⟨"a@b.c", "pw"⟩
        (fun _ _ => false) 0 =
      { result := .error { message := "Password does not match!", statusCode := 401 },
        signCalled := false } :=
  ⟨(login_failure_paths [] ⟨some "acc", some "ref"⟩ ⟨"a@b.c", "pw"⟩ (fun _ _ => true) 0).1
     (by decide),
   (login_failure_paths [⟨"u1", "a@b.c", "hpw", "user", 0⟩] ⟨some "acc", some "ref"⟩
     ⟨"a@b.c", "pw"⟩ (fun _ _ => false) 0).2 ⟨"u1", "a@b.c", "hpw", "user", 0⟩
     (by decide) rfl⟩

/-- HTTP-level outcome of the logout route: a 200 response (which also
clears the cookie), an error handed to the error chain, or a crash of the
middleware. -/
inductive RouteResponse where
  | ok (status : Nat) (message : String)
  | err (e : MWError)
  | crashed
deriving Repr

/-- The logout route from `src/controllers/authController.ts`:
`router.post("/logout", authMiddleware, handler)`.  The auth middleware runs
first; only if it authenticates does the handler read the cookie again,
denylist the refresh token via `authService.logout`, and answer 200
`"Logged out successfully"` while clearing the cookie.  Returns the response
together with the resulting denylist. -/
def logoutRoute (cookies : Cookies) (dl : Denylist) (dbOk : Bool)
    (refreshSecret : Option String) (now : Nat) : RouteResponse × Denylist :=
  match (authMiddleware cookies dl dbOk refreshSecret now).outcome with
  | .crashed => (.crashed, dl)
  | .failed e => (.err e, dl)
  | .authenticated _ =>
    match cookies.bind id with
    | none => (.err (.custom { message := "No refresh token provided", statusCode := 401 }), dl)
    | some t => (.ok 200 "Logged out successfully", logoutService dl t now)

/-- Claim C10: a first logout with a fresh, verifiable refresh token answers
200 and denylists the token; a second logout request carrying the same
cookie within the retention window is stopped by the auth middleware with
403 `"Invalid token!"` instead of answering 200; and denylist membership is
unchanged by repeated insertion of the same token string. -/
theorem double_logout_second_forbidden (T : Token) (dl : Denylist)
    (refreshSecret : Option String) (u : Claims) (now0 now1 : Nat)
    (hFresh : (invalidTokenFindOne dl now0 T).isSome = false)
    (hSec : envFalsy refreshSecret = false)
    (hVerify : verifyJwt T (refreshSecret.getD "") now0 = .ok u)
    (hRet : now1 < now0 + invalidTokenRetention) :
    (logoutRoute (some (some T)) dl true refreshSecret now0).1 = .ok 200 "Logged out successfully" ∧
    (logoutRoute (some (some T)) dl true refreshSecret now0).2 = logoutService dl T now0 ∧
    (logoutRoute (some (some T)) (logoutService dl T now0) true refreshSecret now1).1 =
      .err (.custom { message := "Invalid token!", statusCode := 403 }) ∧
    (∀ x : Token,
      x ∈ (logoutService (logoutService dl T now0) T now1).map InvalidTokenEntry.token ↔
      x ∈ (logoutService dl T now0).map InvalidTokenEntry.token) := by
  have hmw1 : authMiddleware (some (some T)) dl true refreshSecret now0 =
      { outcome := .authenticated u, clearedCookie := false } := by
    simp [authMiddleware, authMiddlewareTry, hFresh, hSec, hVerify]
  have hmw2 : authMiddleware (some (some T)) (logoutService dl T now0) true refreshSecret now1 =
      { outcome := .failed (.custom { message := "Invalid token!", statusCode := 403 }),
        clearedCookie := true } := by
    simp [authMiddleware, authMiddlewareTry,
      invalidTokenFindOne_logout_isSome dl T now0 now1 hRet]
  refine ⟨?_, ?_, ?_, ?_⟩
  · simp [logoutRoute, hmw1]
  · simp [logoutRoute, hmw1]
  · simp [logoutRoute, hmw2]
  · intro x
    simp [logoutService, List.mem_append]

/-- Witness for C10 at a concrete fresh token and configuration. -/
theorem double_logout_second_forbidden_witness :
    (logoutRoute (some (some (signJwt ⟨"i", "e", "user"⟩ "rs" refreshTokenLifetime 0))) []
        true (some "rs") 0).1 = .ok 200 "Logged out successfully" ∧
    (logoutRoute (some (some (signJwt ⟨"i", "e", "user"⟩ "rs" refreshTokenLifetime 0))) []
        true (some "rs") 0).2 =
      logoutService [] (signJwt ⟨"i", "e", "user"⟩ "rs" refreshTokenLifetime 0) 0 ∧
    (logoutRoute (some (some (signJwt ⟨"i", "e", "user"⟩ "rs" refreshTokenLifetime 0)))
        (logoutService [] (signJwt ⟨"i", "e", "user"⟩ "rs" refreshTokenLifetime 0) 0)
        true (some "rs") 60).1 =
      .err (.custom { message := "Invalid token!", statusCode := 403 }) ∧
    (∀ x : Token,
      x ∈ (logoutService (logoutService []
            (signJwt ⟨"i", "e", "user"⟩ "rs" refreshTokenLifetime 0) 0)
            (signJwt ⟨"i", "e", "user"⟩ "rs" refreshTokenLifetime 0) 60).map
            InvalidTokenEntry.token ↔
      x ∈ (logoutService [] (signJwt ⟨"i", "e", "user"⟩ "rs" refreshTokenLifetime 0) 0).map
            InvalidTokenEntry.token) :=
  double_logout_second_forbidden (signJwt ⟨"i", "e", "user"⟩ "rs" refreshTokenLifetime 0) []
    (some "rs") ⟨"i", "e", "user"⟩ 0 60 (by decide) (by decide) rfl (by decide)
